import Mathlib

/-!
Shallow embedding of the RiftboundQuiz repository (riftbound_scraper.py and
riftbound_server.py) together with proofs about the claims on its
specification.  Python strings are modelled as Lean `String`/`List Char`;
each Python regex used by `extract_card_info_batch` is rendered as an
explicit, executable matching function whose semantics (scan positions left
to right, greedy/lazy capture, backtracking) are spelled out in the comments
next to it.  The Flask server's shared status dictionary and its scroll loop
are modelled as explicit state-transition functions.
-/

namespace Riftbound

/-! ### Python string primitives -/

/-- Python's `str.strip()` whitespace class `\s`: space, tab, newline,
carriage return, vertical tab, form feed. -/
def isPySpace (c : Char) : Bool :=
  c == ' ' || c == '\t' || c == '\n' || c == '\r' || c == '\x0b' || c == '\x0c'

/-- Drop trailing characters satisfying `p`. -/
def dropTrailingWhile (p : Char → Bool) (l : List Char) : List Char :=
  (l.reverse.dropWhile p).reverse

/-- Python `str.strip()` on a character list. -/
def pyTrimL (l : List Char) : List Char :=
  dropTrailingWhile isPySpace (l.dropWhile isPySpace)

/-- Python `str.strip()`. -/
def pyTrim (s : String) : String := ⟨pyTrimL s.data⟩

/-- Python `str.lower()` restricted to ASCII (sufficient for the single
comparison against the ASCII literal `"none"` made by the scraper). -/
def asciiLower (s : String) : String := ⟨s.data.map Char.toLower⟩

/-- Python `str.split(',')`: splits on every comma and keeps empty pieces;
`"".split(',') == ['']`. -/
def splitCommaL : List Char → List (List Char)
  | [] => [[]]
  | c :: cs =>
    if c == ',' then [] :: splitCommaL cs
    else
      match splitCommaL cs with
      | [] => [[c]]
      | t :: ts => (c :: t) :: ts

/-- Python's `in` operator on strings: `pat in s` (substring containment). -/
def listContainsSub (pat : List Char) : List Char → Bool
  | [] => pat.isEmpty
  | c :: cs => pat.isPrefixOf (c :: cs) || listContainsSub pat cs

/-! ### The regexes of `extract_card_info_batch` (riftbound_scraper.py 87-156)

Each Python `re.search` scans candidate start positions left to right; a
match can only begin where the regex's leading literal matches, so the scan
is rendered as structural recursion over the character list. -/

/-- `re.search(r'Label:\x7bs*([^.]+?)\x7bs*\.', alt_text)` followed by
`.group(1).strip()`, for `Label:` one of `Color:`, `Type:`, `Super:`,
`Tags:`, `Rarity:` (scraper lines 101, 109, 113, 117, 125).

At a given start position the pattern matches iff the label occurs there and
some period follows it with at least one character in between; the lazy
capture together with the surrounding greedy `\x7bs*` groups then yields,
after `.strip()`, exactly the stripped text strictly between the label and
the first period after it.  If the match fails at this position the engine
retries from the next position. -/
def searchLabelPeriod (label : List Char) : List Char → Option (List Char)
  | [] => none
  | c :: cs =>
    if label.isPrefixOf (c :: cs) then
      let rest := (c :: cs).drop label.length
      let t := rest.takeWhile (fun d => d != '.')
      if t.length < rest.length && !t.isEmpty then some (pyTrimL t)
      else searchLabelPeriod label cs
    else searchLabelPeriod label cs

/-- `re.match(r'^[^.]+\.\x7bs*([^.]+)', alt_text)` followed by
`.group(1).strip()` (scraper lines 93-94).  Anchored at the start: requires
a non-empty period-free prefix, then a period, then (after greedy `\x7bs*`
with backtracking when the tail is all whitespace) a non-empty period-free
segment; after `.strip()` the result is exactly the stripped maximal
period-free segment following the first period. -/
def nameExtract (s : List Char) : Option (List Char) :=
  let p := s.takeWhile (fun d => d != '.')
  if p.isEmpty || p.length == s.length then none
  else
    let q := (s.drop (p.length + 1)).takeWhile (fun d => d != '.')
    if q.isEmpty then none else some (pyTrimL q)

/-- The literal label of the how-to-play rule. -/
def howToPlayLabel : List Char := "How to play this card:".data

/-- `re.search(r'How to play this card:\x7bs*(.*)', alt_text)` followed by
`.group(1).strip()` (scraper lines 97-98).  The first occurrence of the
literal label always yields a match; `\x7bs*` greedily eats whitespace
(including newlines) and `(.*)` captures to the next newline or end. -/
def searchHowToPlay : List Char → Option (List Char)
  | [] => none
  | c :: cs =>
    if howToPlayLabel.isPrefixOf (c :: cs) then
      let rest := (c :: cs).drop howToPlayLabel.length
      some (pyTrimL ((rest.dropWhile isPySpace).takeWhile (fun d => d != '\n')))
    else searchHowToPlay cs

/-- Python `\w` (ASCII range): letters, digits, underscore. -/
def isWordChar (c : Char) : Bool := c.isAlphanum || c == '_'

/-- `re.search(r'(OGN-[\w\d]+)', src)` (scraper line 105): first occurrence
of `OGN-` followed by at least one word character; the greedy `[\w\d]+`
extends to the last consecutive word character. -/
def searchCardId : List Char → Option (List Char)
  | [] => none
  | c :: cs =>
    if ['O', 'G', 'N', '-'].isPrefixOf (c :: cs) then
      let w := ((c :: cs).drop 4).takeWhile isWordChar
      if w.isEmpty then searchCardId cs else some (['O', 'G', 'N', '-'] ++ w)
    else searchCardId cs

/-! ### Field post-processing (scraper lines 116-136) -/

/-- `valid_colors` (scraper line 133). -/
def validColors : List String := ["Red", "Blue", "Green", "Purple", "Orange", "Yellow"]

/-- `color_string.split(',')` with `c.strip()` applied to each piece
(scraper line 131), or `[]` when the captured color string is absent or
empty (lines 126, 129, 135-136). -/
def colorTokens (alt : List Char) : List String :=
  match searchLabelPeriod "Color:".data alt with
  | none => []
  | some cstr =>
    if cstr.isEmpty then []
    else (splitCommaL cstr).map (fun t => (⟨pyTrimL t⟩ : String))

/-- `tags_string` (scraper lines 117-118): the captured `Tags:` segment or
`''` when the regex does not match. -/
def tagsString (alt : List Char) : String :=
  ⟨(searchLabelPeriod "Tags:".data alt).getD []⟩

/-- Tags post-processing (scraper lines 119-122): the whole captured string
lowercased equal to `"none"`, or empty, gives `[]`; otherwise split on
commas, strip each piece and drop empty pieces. -/
def parseTags (alt : List Char) : List String :=
  let ts := tagsString alt
  if asciiLower ts == "none" || ts == "" then []
  else ((splitCommaL ts.data).map (fun t => (⟨pyTrimL t⟩ : String))).filter
    (fun t => !t.isEmpty)

/-! ### The card record (scraper lines 139-152) -/

/-- The dictionary built for each element, with the exact key set of the
Python `card` dict. -/
structure Card where
  id : Nat
  card_id : String
  name : String
  image : String
  text : String
  howToPlay : String
  colors : List String
  colorString : String
  type : String
  super : String
  tags : List String
  rarity : String
deriving DecidableEq

/-- The per-element body of `extract_card_info_batch` (scraper lines
88-154): a pure function of the element's `src`, `alt` and 0-based
enumeration index `idx`. -/
def extractCard (src alt : String) (idx : Nat) : Card :=
  let a := alt.data
  { id := idx + 1
    card_id := ⟨(searchCardId src.data).getD []⟩
    name :=
      match nameExtract a with
      | some n => ⟨n⟩
      | none => "Unknown Card " ++ toString (idx + 1)
    image := src
    text := alt
    howToPlay := ⟨(searchHowToPlay a).getD []⟩
    colors := (colorTokens a).filter (fun c => decide (c ∈ validColors))
    colorString := ⟨(searchLabelPeriod "Color:".data a).getD []⟩
    type := ⟨(searchLabelPeriod "Type:".data a).getD []⟩
    super := ⟨(searchLabelPeriod "Super:".data a).getD []⟩
    tags := parseTags a
    rarity := ⟨(searchLabelPeriod "Rarity:".data a).getD []⟩ }

/-- The whole extraction loop of `extract_card_info_batch` over the
collected `(src, alt)` pairs, in document order with `enumerate` indices. -/
def extractCardInfoBatch (elems : List (String × String)) : List Card :=
  elems.enum.map (fun p => extractCard p.2.1 p.2.2 p.1)

/-! ### The incremental scroll loop (riftbound_scraper.py 255-300)

The rendering engine is an abstract collaborator: a state type `σ` with the
observations and effects the loop performs on it.  Each effectful call
(`window.scrollTo` plus the following `wait_for_timeout`) is one state
transformer; each read (`window.pageYOffset`, `document.body.scrollHeight`,
the locator count) is a projection. -/

structure EngineOps (σ : Type) where
  innerHeight : σ → Nat
  pageYOffset : σ → Nat
  scrollHeight : σ → Nat
  scrollToBottomAndWait : σ → σ
  scrollToAndWait : σ → Nat → σ
  cardCount : σ → Nat

/-- `max_attempts` (scraper line 258). -/
def maxAttempts : Nat := 250

/-- Result of running the scroll loop for a bounded number of iterations:
either the Python `while` loop exited (via `break` or via the
`scroll_attempts < max_attempts` guard), or the iteration budget `fuel` ran
out with the loop still going. -/
inductive ScrollOutcome (σ : Type) where
  | stopped (s : σ) (attempts : Nat)
  | running (s : σ) (attempts : Nat)
deriving DecidableEq

/-- One-to-one rendering of the `while scroll_attempts < max_attempts` loop
(scraper lines 263-300), indexed by `fuel` counting loop iterations.  The
bottom branch (lines 271-283) re-scrolls to the absolute bottom; if the page
grew it executes `continue` — which skips the `scroll_attempts += 1` at line
300 — and otherwise `break`s.  The normal branch (lines 284-287) scrolls one
viewport, runs the periodic count probe (lines 289-298, which only updates
`previous_count`), and increments `scroll_attempts`. -/
def scrollLoop (E : EngineOps σ) (v : Nat) :
    Nat → σ → Nat → Nat → ScrollOutcome σ
  | 0, s, attempts, _prev => .running s attempts
  | fuel + 1, s, attempts, prev =>
    if attempts < maxAttempts then
      let cur := E.pageYOffset s
      let h := E.scrollHeight s
      let next := cur + v
      if h ≤ next then
        let s2 := E.scrollToBottomAndWait s
        let newH := E.scrollHeight s2
        if h < newH then
          scrollLoop E v fuel s2 attempts prev
        else
          .stopped s2 attempts
      else
        let s2 := E.scrollToAndWait s next
        let prev2 :=
          if attempts % 3 == 0 && prev < E.cardCount s2 then E.cardCount s2
          else prev
        scrollLoop E v fuel s2 (attempts + 1) prev2
    else
      .stopped s attempts

/-- A pathological lazy-loading page: the viewport is 100 high, the view
stays pinned to the bottom of the document (`pageYOffset` is always
`scrollHeight - innerHeight`), and every scroll-to-bottom probe makes the
document grow by one unit.  The state is the current document height. -/
def pinnedGrowingEngine : EngineOps Nat where
  innerHeight := fun _ => 100
  pageYOffset := fun h => h - 100
  scrollHeight := fun h => h
  scrollToBottomAndWait := fun h => h + 1
  scrollToAndWait := fun h _ => h
  cardCount := fun _ => 0

/-! ### The Flask server (riftbound_server.py)

`scraping_status` is a two-field dictionary guarded by `scraping_lock`;
every assignment to it in the source is one transition below. -/

/-- The `scraping_status` dictionary (server line 23). -/
structure ScrapingStatus where
  status : String
  message : String
deriving DecidableEq

/-- The module-level initial value `{"status": "idle", "message": ""}`
(server line 23). -/
def initialScrapingStatus : ScrapingStatus := ⟨"idle", ""⟩

/-- The distinguishable ways `run_scraper` (server lines 84-171) can end. -/
inductive RunOutcome where
  | success (numCards : Nat)
  | noCardsFile
  | procFailure (stderr : String)
  | scraperScriptMissing
  | pythonMissing
  | exception (msg : String)
deriving DecidableEq

def RunOutcome.isSuccess : RunOutcome → Bool
  | .success _ => true
  | _ => false

/-- The terminal `scraping_status` assignment made by `run_scraper` for each
outcome (server lines 95-99, 142-146, 147-152, 153-160, 162-167, 168-171). -/
def terminalStatus : RunOutcome → ScrapingStatus
  | .success n =>
    ⟨"complete", "Successfully scraped " ++ toString n ++ " cards!"⟩
  | .noCardsFile =>
    ⟨"error", "Scraping completed but no cards file was created"⟩
  | .procFailure stderr =>
    ⟨"error", "Scraper failed: " ++ (if stderr == "" then "Unknown error" else stderr)⟩
  | .scraperScriptMissing =>
    ⟨"error", "riftbound_scraper.py not found in current directory"⟩
  | .pythonMissing =>
    ⟨"error", "Python not found. Make sure Python is installed and in PATH"⟩
  | .exception msg => ⟨"error", msg⟩

/-- Every event in the server's lifetime that writes `scraping_status`. -/
inductive ServerEvent where
  | trigger
  | runInit
  | runLaunch
  | runProgress (line : String)
  | runEnd (o : RunOutcome)

/-- The status transition performed by each event: the `/scrape` handler's
check-and-set (server lines 48-53), the two early updates in `run_scraper`
(lines 89-90, 103-104), the per-output-line progress update guarded by
`"Found" in line or "Scraped:" in line` (lines 123-130), and the terminal
assignment. -/
def stepStatus (st : ScrapingStatus) : ServerEvent → ScrapingStatus
  | .trigger =>
    if st.status == "scraping" then st else ⟨"scraping", "Starting scraper..."⟩
  | .runInit => ⟨"scraping", "Initializing scraper..."⟩
  | .runLaunch =>
    ⟨"scraping", "Running scraper (this may take a few minutes)..."⟩
  | .runProgress line =>
    if listContainsSub "Found".data line.data
        || listContainsSub "Scraped:".data line.data then
      ⟨"scraping", line⟩
    else st
  | .runEnd o => terminalStatus o

/-- The status values the server can ever hold: the initial value followed
by any sequence of the transitions above. -/
inductive ReachableStatus : ScrapingStatus → Prop where
  | init : ReachableStatus initialScrapingStatus
  | step (st : ScrapingStatus) (e : ServerEvent) :
      ReachableStatus st → ReachableStatus (stepStatus st e)

/-- Server state for the trigger endpoint: the shared status plus a ghost
counter of scraper runs started (`threading.Thread(...).start()` calls,
server lines 56-58). -/
structure ServerState where
  scrapingStatus : ScrapingStatus
  runsStarted : Nat
deriving DecidableEq

/-- The two possible responses of `POST /scrape` (server lines 50, 60). -/
inductive ScrapeResponse where
  | accepted
  | conflict
deriving DecidableEq

/-- The `/scrape` handler (server lines 43-60).  The conflict check and the
transition to `"scraping"` are both inside the single `with scraping_lock:`
block (lines 48-53), so the handler is one atomic step on the shared state;
only a caller that performed the transition starts a thread. -/
def scrapeTrigger (s : ServerState) : ServerState × ScrapeResponse :=
  if s.scrapingStatus.status == "scraping" then (s, .conflict)
  else
    ({ scrapingStatus := ⟨"scraping", "Starting scraper..."⟩,
       runsStarted := s.runsStarted + 1 }, .accepted)

/-- `n` trigger requests arriving back to back (the lock serializes
concurrent requests into some such sequence). -/
def scrapeTriggerN : Nat → ServerState → ServerState
  | 0, s => s
  | n + 1, s => scrapeTriggerN n (scrapeTrigger s).1

/-! ### Persistence (riftbound_scraper.py `save_database`, 361-393, and
riftbound_server.py `get_cards`, 68-82)

The JSON text written by `json.dump(..., ensure_ascii=False)` and read back
by `json.load` is modelled at the level of JSON values; the card dictionary
written per card has exactly the keys of `Card`, and strings carry their
characters verbatim (UTF-8, no lossy escaping). -/

inductive JValue where
  | jstr (s : String)
  | jnum (n : Nat)
  | jarr (xs : List JValue)
  | jobj (fields : List (String × JValue))

/-- The JSON object written for one card: the `card` dict of scraper lines
139-152 in its construction order. -/
def cardToJson (c : Card) : JValue :=
  .jobj
    [("id", .jnum c.id), ("card_id", .jstr c.card_id), ("name", .jstr c.name),
     ("image", .jstr c.image), ("text", .jstr c.text),
     ("howToPlay", .jstr c.howToPlay),
     ("colors", .jarr (c.colors.map .jstr)),
     ("colorString", .jstr c.colorString), ("type", .jstr c.type),
     ("super", .jstr c.super), ("tags", .jarr (c.tags.map .jstr)),
     ("rarity", .jstr c.rarity)]

/-- `json.dump(self.cards, ...)`: the array of card objects. -/
def cardsToJson (cs : List Card) : JValue := .jarr (cs.map cardToJson)

/-- Key lookup in a JSON object (Python `card['field']` after `json.load`). -/
def jLookup (k : String) : List (String × JValue) → Option JValue
  | [] => none
  | (k2, v) :: fs => if k2 == k then some v else jLookup k fs

def asStr : JValue → Option String
  | .jstr s => some s
  | _ => none

def asNum : JValue → Option Nat
  | .jnum n => some n
  | _ => none

/-- Option-valued map over a list, failing if any element fails. -/
def optMapList (f : α → Option β) : List α → Option (List β)
  | [] => some []
  | a :: as => (f a).bind fun b => (optMapList f as).map fun bs => b :: bs

def asStrArr : JValue → Option (List String)
  | .jarr xs => optMapList asStr xs
  | _ => none

/-- Reading one card object back out of the loaded JSON, field by field. -/
def cardOfJson : JValue → Option Card
  | .jobj fs => do
    let id ← (jLookup "id" fs).bind asNum
    let cardId ← (jLookup "card_id" fs).bind asStr
    let name ← (jLookup "name" fs).bind asStr
    let image ← (jLookup "image" fs).bind asStr
    let text ← (jLookup "text" fs).bind asStr
    let htp ← (jLookup "howToPlay" fs).bind asStr
    let colors ← (jLookup "colors" fs).bind asStrArr
    let colorString ← (jLookup "colorString" fs).bind asStr
    let ty ← (jLookup "type" fs).bind asStr
    let sup ← (jLookup "super" fs).bind asStr
    let tags ← (jLookup "tags" fs).bind asStrArr
    let rarity ← (jLookup "rarity" fs).bind asStr
    pure { id := id, card_id := cardId, name := name, image := image,
           text := text, howToPlay := htp, colors := colors,
           colorString := colorString, type := ty, super := sup,
           tags := tags, rarity := rarity }
  | _ => none

/-- Reading the persisted array back as card records. -/
def cardsOfJson : JValue → Option (List Card)
  | .jarr xs => optMapList cardOfJson xs
  | _ => none

/-- The output file's state: `none` when `riftbound_cards.json` does not
exist, `some j` when it holds the JSON value `j`. -/
abbrev FileState := Option JValue

/-- `save_database` (scraper lines 361-393): on an empty card list it logs a
warning and returns before the file is opened (lines 368-370); otherwise it
overwrites the file with the serialized card array (lines 372-376). -/
def saveDatabase (cards : List Card) (fs : FileState) : FileState :=
  if cards.isEmpty then fs else some (cardsToJson cards)

/-- `GET /cards` (server lines 68-82): a missing file yields the empty JSON
list; an existing file is loaded and served.  (At the JSON-value level of
this model a present file always parses, so the corrupt-file 500 branch of
lines 78-80 has no representative input.) -/
def getCards : FileState → JValue
  | none => .jarr []
  | some j => j

/-! ### Concrete inputs used by the theorems below -/

/-- The alt text of the end-to-end scenario. -/
def asheAlt : String :=
  "Ashe. Color: Blue, Purple. Type: Unit. Super: Champion. Rarity: Rare. Tags: None. How to play this card: Deal damage."

/-- A source URL ending in `OGN-045.png`. -/
def asheSrc : String := "https://cmsassets.rgpub.io/sanity/images/OGN-045.png"

/-- A card record with non-ASCII characters in its name, used to exercise
the persistence round trip. -/
def sampleCard : Card :=
  { id := 1, card_id := "OGN-001", name := "Séjuani – 風の射手"
    image := "https://cmsassets.rgpub.io/sanity/images/OGN-001.png"
    text := "Séjuani – 風の射手. Color: Red."
    howToPlay := "", colors := ["Red"], colorString := "Red"
    type := "Unit", super := "Champion", tags := [], rarity := "Rare" }

/-! ## Helper lemmas -/

/-- If a label does not occur as a substring, the labelled search fails. -/
theorem searchLabelPeriod_eq_none_of_not_contains (label : List Char) :
    ∀ s : List Char, listContainsSub label s = false →
      searchLabelPeriod label s = none := by
  intro s
  induction s with
  | nil => intro _; rfl
  | cons c cs ih =>
    intro h
    rw [listContainsSub, Bool.or_eq_false_iff] at h
    rw [searchLabelPeriod, if_neg (by simp [h.1]), ih h.2]

/-- Reading back an array of JSON strings recovers the string list. -/
theorem optMapList_asStr_map_jstr (l : List String) :
    optMapList asStr (l.map JValue.jstr) = some l := by
  induction l with
  | nil => rfl
  | cons a as ih => simp [optMapList, asStr, ih]

/-- Decoding inverts the per-card JSON encoding. -/
theorem cardOfJson_cardToJson (c : Card) :
    cardOfJson (cardToJson c) = some c := by
  simp [cardToJson, cardOfJson, jLookup, asStr, asNum, asStrArr,
    optMapList_asStr_map_jstr, Option.bind]

/-- Decoding inverts the card-array JSON encoding. -/
theorem cardsOfJson_cardsToJson (cs : List Card) :
    cardsOfJson (cardsToJson cs) = some cs := by
  induction cs with
  | nil => rfl
  | cons c cs ih =>
    simp [cardsToJson, cardsOfJson, optMapList, cardOfJson_cardToJson] at *
    simp [ih]

/-! ## Claims -/

/-- Claim C1, counterexample.  On the end-to-end scenario input the name
regex `^[^.]+\.\s*([^.]+)` captures the text between the first and second
periods of the alt text, which is the color segment, not `"Ashe"`. -/
theorem ashe_name_counterexample :
    (extractCard asheSrc asheAlt 0).name = "Color: Blue, Purple" ∧
      "Color: Blue, Purple" ≠ "Ashe" := by
  constructor
  · decide
  · decide

/-- Claim C1 (amended).  For the scenario alt text and a source URL ending
in `OGN-045.png`, the per-element extraction of `extract_card_info_batch`
yields colors `[Blue, Purple]`, type `"Unit"`, super `"Champion"`, rarity
`"Rare"`, empty tags, how-to-play `"Deal damage."` and card id `"OGN-045"`
— but the name is `"Color: Blue, Purple"` (the text between the first and
second periods), not `"Ashe"`. -/
theorem ashe_scenario_extraction :
    extractCard asheSrc asheAlt 0 =
      { id := 1, card_id := "OGN-045", name := "Color: Blue, Purple"
        image := asheSrc, text := asheAlt, howToPlay := "Deal damage."
        colors := ["Blue", "Purple"], colorString := "Blue, Purple"
        type := "Unit", super := "Champion", tags := [], rarity := "Rare" } := by
  decide

/-- Claim C2, counterexample.  For the alt text `"Ashe. Color: Blue."` the
trimmed free-text segment preceding the first recognized label is `"Ashe."`
(or `"Ashe"` without the delimiter), but the extracted name is the text
between the first and second periods, `"Color: Blue"`. -/
theorem name_before_label_counterexample :
    (extractCard "" "Ashe. Color: Blue." 0).name = "Color: Blue" ∧
      "Color: Blue" ≠ "Ashe" ∧ "Color: Blue" ≠ "Ashe." := by
  refine ⟨by decide, by decide, by decide⟩

/-- Claim C2 (amended).  For every alt text, the extracted name is the
stripped maximal period-free segment that follows the first period (not the
segment preceding the first recognized label); when the alt text has no
character before its first period, no period at all, or nothing between the
first and second periods, the name is the placeholder `"Unknown Card <n>"`
with `n` the 1-based element position. -/
theorem name_field_characterization (src alt : String) (idx : Nat) :
    ((alt.data.takeWhile (fun d => d != '.')).isEmpty = false →
      ((alt.data.takeWhile (fun d => d != '.')).length == alt.data.length) = false →
      ((alt.data.drop ((alt.data.takeWhile (fun d => d != '.')).length + 1)).takeWhile
          (fun d => d != '.')).isEmpty = false →
      (extractCard src alt idx).name =
        ⟨pyTrimL ((alt.data.drop
          ((alt.data.takeWhile (fun d => d != '.')).length + 1)).takeWhile
          (fun d => d != '.'))⟩) ∧
    ((((alt.data.takeWhile (fun d => d != '.')).isEmpty
          || (alt.data.takeWhile (fun d => d != '.')).length == alt.data.length)
        || ((alt.data.drop
              ((alt.data.takeWhile (fun d => d != '.')).length + 1)).takeWhile
              (fun d => d != '.')).isEmpty) = true →
      (extractCard src alt idx).name = "Unknown Card " ++ toString (idx + 1)) := by
  have hname : (extractCard src alt idx).name =
      match nameExtract alt.data with
      | some n => (⟨n⟩ : String)
      | none => "Unknown Card " ++ toString (idx + 1) := rfl
  constructor
  · intro h1 h2 h3
    rw [hname, nameExtract]
    rw [if_neg (by rw [h1, h2]; decide), if_neg (by rw [h3]; decide)]
  · intro hor
    rw [hname, nameExtract]
    rcases Bool.or_eq_true_iff.mp hor with h | h2
    · rw [if_pos h]
    · by_cases hc : ((alt.data.takeWhile (fun d => d != '.')).isEmpty
          || (alt.data.takeWhile (fun d => d != '.')).length == alt.data.length) = true
      · rw [if_pos hc]
      · rw [if_neg hc, if_pos h2]

/-- Witness for claim C2: both halves at concrete inputs — `"A.B.C"` names
the text between the first two periods, `"no periods"` falls back to the
placeholder with the 1-based position. -/
theorem name_field_characterization_witness :
    (extractCard "" "A.B.C" 0).name = ⟨pyTrimL (("A.B.C".data.drop
        ((("A.B.C".data.takeWhile (fun d => d != '.'))).length + 1)).takeWhile
        (fun d => d != '.'))⟩ ∧
      (extractCard "" "no periods" 4).name = "Unknown Card " ++ toString 5 :=
  ⟨(name_field_characterization "" "A.B.C" 0).1 (by decide) (by decide) (by decide),
    (name_field_characterization "" "no periods" 4).2 (by decide)⟩

/-- Claim C3, counterexample.  A color segment that lists `Blue` twice
yields `colors = [Blue, Blue]`: duplicates are kept, not collapsed. -/
theorem colors_duplicate_counterexample :
    (extractCard "" "A. Color: Blue, Blue." 0).colors = ["Blue", "Blue"] ∧
      ¬ (extractCard "" "A. Color: Blue, Blue." 0).colors.Nodup := by
  refine ⟨by decide, by decide⟩

/-- Claim C3 (amended).  For every alt text the extracted colors contain
only members of the fixed 6-color set and form the order-preserving
subsequence of the comma-split, stripped color tokens obtained by keeping
the valid ones — but duplicates are NOT collapsed: each valid color occurs
exactly as many times as it occurs among the input tokens. -/
theorem colors_filter_characterization (src alt : String) (idx : Nat) :
    (∀ c ∈ (extractCard src alt idx).colors, c ∈ validColors) ∧
      (extractCard src alt idx).colors.Sublist (colorTokens alt.data) ∧
      (∀ c ∈ validColors,
        (extractCard src alt idx).colors.count c = (colorTokens alt.data).count c) := by
  have hcolors : (extractCard src alt idx).colors =
      (colorTokens alt.data).filter (fun c => decide (c ∈ validColors)) := rfl
  rw [hcolors]
  refine ⟨?_, List.filter_sublist _, ?_⟩
  · intro c hc
    exact of_decide_eq_true (List.mem_filter.mp hc).2
  · intro c hc
    exact List.count_filter (by simpa using hc)

/-- Witness for claim C3 at a concrete duplicated input. -/
theorem colors_filter_characterization_witness :
    (extractCard "" "X. Color: Green, Blue, Green." 0).colors.count "Green"
        = (colorTokens ("X. Color: Green, Blue, Green.").data).count "Green" ∧
      "Green" ∈ validColors :=
  ⟨(colors_filter_characterization "" "X. Color: Green, Blue, Green." 0).2.2
      "Green" (by decide),
    by decide⟩

/-- Claim C4.  A Tags segment that (case-insensitively) is the single token
`"none"` yields no tags; an alt text without any occurrence of `Tags:`
yields no tags; and `"Tags: Dragon, Pirate."` yields exactly
`[Dragon, Pirate]` in that order. -/
theorem tags_none_empty :
    (∀ (src alt : String) (idx : Nat),
        asciiLower (tagsString alt.data) = "none" →
        (extractCard src alt idx).tags = []) ∧
      (∀ (src alt : String) (idx : Nat),
        listContainsSub "Tags:".data alt.data = false →
        (extractCard src alt idx).tags = []) ∧
      (extractCard "" "A. B. Tags: Dragon, Pirate." 0).tags = ["Dragon", "Pirate"] ∧
      (extractCard "" "A. B. Tags: None. C." 0).tags = [] := by
  refine ⟨?_, ?_, by decide, by decide⟩
  · intro src alt idx h
    have htags : (extractCard src alt idx).tags = parseTags alt.data := rfl
    rw [htags, parseTags]
    simp [h]
  · intro src alt idx h
    have htags : (extractCard src alt idx).tags = parseTags alt.data := rfl
    rw [htags, parseTags, tagsString,
      searchLabelPeriod_eq_none_of_not_contains _ _ h]
    rfl

/-- Witness for claim C4: an upper-case `NONE` segment and an alt text with
no Tags label both give an empty tag list. -/
theorem tags_none_empty_witness :
    (extractCard "" "Z. Y. Tags: NONE. Q." 0).tags = [] ∧
      (extractCard "" "Z. Y." 0).tags = [] :=
  ⟨tags_none_empty.1 "" "Z. Y. Tags: NONE. Q." 0 (by decide),
    tags_none_empty.2.1 "" "Z. Y." 0 (by decide)⟩

/-- Claim C5.  The per-element extraction is a total, deterministic, pure
function of the source URL, the alt text and the position: on every input it
yields a record (with the original alt text and the 1-based id), and equal
inputs give equal records. -/
theorem extract_total_deterministic :
    ∀ (src alt : String) (idx : Nat) (src2 alt2 : String) (idx2 : Nat),
      (∃ c : Card, extractCard src alt idx = c) ∧
      (extractCard src alt idx).text = alt ∧
      (extractCard src alt idx).id = idx + 1 ∧
      (src = src2 → alt = alt2 → idx = idx2 →
        extractCard src alt idx = extractCard src2 alt2 idx2) := by
  intro src alt idx src2 alt2 idx2
  refine ⟨⟨extractCard src alt idx, rfl⟩, rfl, rfl, ?_⟩
  intro h1 h2 h3
  rw [h1, h2, h3]

/-- Witness for claim C5 at concrete inputs. -/
theorem extract_total_deterministic_witness :
    (∃ c : Card, extractCard "u" "v" 3 = c) ∧
      extractCard "u" "v" 3 = extractCard "u" "v" 3 :=
  ⟨(extract_total_deterministic "u" "v" 3 "u" "v" 3).1,
    (extract_total_deterministic "u" "v" 3 "u" "v" 3).2.2.2 rfl rfl rfl⟩

/-- On the pinned growing page the loop body always takes the
bottom-reached, page-grew, `continue` branch, which skips the
`scroll_attempts += 1` statement; so after any number of iterations the
attempt counter is still 0 and the loop is still going. -/
theorem scrollLoop_pinned_running :
    ∀ fuel h : Nat, 100 ≤ h →
      scrollLoop pinnedGrowingEngine 100 fuel h 0 0 =
        .running (h + fuel) 0 := by
  intro fuel
  induction fuel with
  | zero => intro h _; rw [Nat.add_zero]; rfl
  | succ n ih =>
    intro h hh
    have hp : pinnedGrowingEngine.pageYOffset h = h - 100 := rfl
    have hsc : ∀ k : Nat, pinnedGrowingEngine.scrollHeight k = k := fun _ => rfl
    have hb : pinnedGrowingEngine.scrollToBottomAndWait h = h + 1 := rfl
    have hc : h - 100 + 100 = h := Nat.sub_add_cancel hh
    rw [scrollLoop]
    rw [if_pos (by decide : 0 < maxAttempts)]
    simp only [hp, hsc, hb, hc]
    rw [if_pos (Nat.le_refl h), if_pos (Nat.lt_succ_self h)]
    rw [ih (h + 1) (Nat.le_succ_of_le hh)]
    have harith : h + 1 + n = h + (n + 1) := by omega
    rw [harith]

/-- Claim C6 (code bug).  The incremental-scroll loop does NOT always
terminate: against a rendering engine whose page stays pinned to the bottom
and grows on every scroll-to-bottom probe, every iteration takes the
grow-and-`continue` branch, which skips `scroll_attempts += 1`, so after any
number `fuel` of iterations the loop is still running and the attempt
counter is still 0 — the `max_attempts = 250` ceiling is never reached. -/
theorem scroll_loop_nontermination :
    ∀ fuel : Nat,
      scrollLoop pinnedGrowingEngine 100 fuel 100 0 0 =
        .running (100 + fuel) 0 :=
  fun fuel => scrollLoop_pinned_running fuel 100 (Nat.le_refl 100)

/-- Every reachable value of the shared status dictionary has one of the
four status strings that the server's code ever assigns. -/
theorem reachable_status_values :
    ∀ st : ScrapingStatus, ReachableStatus st →
      st.status ∈ (["idle", "scraping", "complete", "error"] : List String) := by
  intro st h
  induction h with
  | init => simp [initialScrapingStatus]
  | step st2 e _ ih =>
    cases e with
    | trigger =>
      by_cases hc : (st2.status == "scraping") = true
      · simpa [stepStatus, hc] using ih
      · simp [stepStatus, hc]
    | runInit => simp [stepStatus]
    | runLaunch => simp [stepStatus]
    | runProgress line =>
      by_cases hc : (listContainsSub "Found".data line.data
          || listContainsSub "Scraped:".data line.data) = true
      · simp [stepStatus, hc]
      · simpa [stepStatus, hc] using ih
    | runEnd o => cases o <;> simp [stepStatus, terminalStatus]

/-- Claim C7, counterexample.  The status right after a trigger is the
string `"scraping"` — a reachable status value that is not in the claimed
set `{idle, running, complete, error}`: the claimed in-flight value
`"running"` is never used by the code. -/
theorem status_running_counterexample :
    ReachableStatus ⟨"scraping", "Starting scraper..."⟩ ∧
      "scraping" ∉ (["idle", "running", "complete", "error"] : List String) := by
  constructor
  · have h := ReachableStatus.step initialScrapingStatus .trigger
      ReachableStatus.init
    have he : stepStatus initialScrapingStatus .trigger =
        ⟨"scraping", "Starting scraper..."⟩ := by decide
    exact he ▸ h
  · decide

/-- Claim C7 (amended).  The status value is always one of exactly
`{idle, scraping, complete, error}` — the in-flight value is `"scraping"`,
not `"running"` — and the run's terminal transition reflects the terminal
state accurately: `"complete"` exactly on success, `"error"` on every
failure outcome. -/
theorem status_value_invariant :
    (∀ st : ScrapingStatus, ReachableStatus st →
        st.status ∈ (["idle", "scraping", "complete", "error"] : List String)) ∧
      (∀ (st : ScrapingStatus) (o : RunOutcome), o.isSuccess = true →
        (stepStatus st (.runEnd o)).status = "complete") ∧
      (∀ (st : ScrapingStatus) (o : RunOutcome), o.isSuccess = false →
        (stepStatus st (.runEnd o)).status = "error") := by
  refine ⟨reachable_status_values, ?_, ?_⟩
  · intro st o ho
    cases o <;> simp_all [stepStatus, terminalStatus, RunOutcome.isSuccess]
  · intro st o ho
    cases o <;> simp_all [stepStatus, terminalStatus, RunOutcome.isSuccess]

/-- Witness for claim C7 at concrete states and outcomes. -/
theorem status_value_invariant_witness :
    initialScrapingStatus.status ∈
        (["idle", "scraping", "complete", "error"] : List String) ∧
      (stepStatus initialScrapingStatus (.runEnd (.success 42))).status
        = "complete" ∧
      (stepStatus initialScrapingStatus (.runEnd .noCardsFile)).status
        = "error" :=
  ⟨status_value_invariant.1 initialScrapingStatus ReachableStatus.init,
    status_value_invariant.2.1 initialScrapingStatus (.success 42) rfl,
    status_value_invariant.2.2 initialScrapingStatus .noCardsFile rfl⟩

/-- Once the status is `"scraping"`, further trigger requests leave the
server state (including the run counter) untouched. -/
theorem scrapeTriggerN_fixed :
    ∀ (n : Nat) (s : ServerState), s.scrapingStatus.status = "scraping" →
      scrapeTriggerN n s = s := by
  intro n
  induction n with
  | zero => intro s _; rfl
  | succ m ih =>
    intro s hs
    have h1 : scrapeTrigger s = (s, .conflict) := by
      rw [scrapeTrigger, if_pos (by simp [hs])]
    rw [scrapeTriggerN, h1]
    exact ih s hs

/-- Claim C8.  A trigger while a run is in flight (status `"scraping"`)
returns the conflict response and starts no run; a trigger while no run is
in flight starts exactly one run and moves the status to `"scraping"`; and
since the check and the transition form one atomic step under
`scraping_lock`, any number of back-to-back trigger requests from a
no-run-in-flight state start exactly one run in total. -/
theorem trigger_conflict_atomic :
    (∀ s : ServerState, s.scrapingStatus.status = "scraping" →
        scrapeTrigger s = (s, .conflict)) ∧
      (∀ s : ServerState, s.scrapingStatus.status ≠ "scraping" →
        (scrapeTrigger s).2 = .accepted ∧
        (scrapeTrigger s).1.runsStarted = s.runsStarted + 1 ∧
        (scrapeTrigger s).1.scrapingStatus.status = "scraping") ∧
      (∀ (n : Nat) (s : ServerState), s.scrapingStatus.status ≠ "scraping" →
        (scrapeTriggerN (n + 1) s).runsStarted = s.runsStarted + 1) := by
  have hpos : ∀ s : ServerState, s.scrapingStatus.status = "scraping" →
      scrapeTrigger s = (s, .conflict) := by
    intro s hs
    rw [scrapeTrigger, if_pos (by simp [hs])]
  have hneg : ∀ s : ServerState, s.scrapingStatus.status ≠ "scraping" →
      scrapeTrigger s =
        ({ scrapingStatus := ⟨"scraping", "Starting scraper..."⟩,
           runsStarted := s.runsStarted + 1 }, .accepted) := by
    intro s hs
    rw [scrapeTrigger, if_neg (by simp [hs])]
  refine ⟨hpos, ?_, ?_⟩
  · intro s hs
    rw [hneg s hs]
    exact ⟨rfl, rfl, rfl⟩
  · intro n s hs
    rw [scrapeTriggerN, hneg s hs]
    rw [scrapeTriggerN_fixed n
      { scrapingStatus := ⟨"scraping", "Starting scraper..."⟩,
        runsStarted := s.runsStarted + 1 } rfl]

/-- Witness for claim C8: a conflict at an in-flight state, and five
back-to-back triggers from the idle start state starting exactly one run. -/
theorem trigger_conflict_atomic_witness :
    scrapeTrigger ⟨⟨"scraping", "Starting scraper..."⟩, 1⟩ =
        (⟨⟨"scraping", "Starting scraper..."⟩, 1⟩, .conflict) ∧
      (scrapeTriggerN 5 ⟨initialScrapingStatus, 0⟩).runsStarted = 0 + 1 :=
  ⟨trigger_conflict_atomic.1 ⟨⟨"scraping", "Starting scraper..."⟩, 1⟩ rfl,
    trigger_conflict_atomic.2.2 4 ⟨initialScrapingStatus, 0⟩ (by decide)⟩

/-- Claim C9.  Persisting a non-empty card list writes exactly the
serialized card array, and reading that array back (field by field, as the
result query serves it) recovers a field-for-field identical list —
including names with non-ASCII characters, since strings are carried
verbatim. -/
theorem save_roundtrip :
    ∀ (cs : List Card) (fs : FileState), cs ≠ [] →
      saveDatabase cs fs = some (cardsToJson cs) ∧
      cardsOfJson (cardsToJson cs) = some cs := by
  intro cs fs h
  refine ⟨?_, cardsOfJson_cardsToJson cs⟩
  rw [saveDatabase, if_neg (by simpa [List.isEmpty_iff] using h)]

/-- Witness for claim C9: the round trip on a one-card list whose name
contains non-ASCII characters. -/
theorem save_roundtrip_witness :
    saveDatabase [sampleCard] none = some (cardsToJson [sampleCard]) ∧
      cardsOfJson (cardsToJson [sampleCard]) = some [sampleCard] :=
  save_roundtrip [sampleCard] none (List.cons_ne_nil _ _)

/-- Claim C10.  With an empty card list `save_database` returns before
touching the file, so the previously persisted artifact is unchanged and
the result query keeps serving the prior run's records. -/
theorem save_empty_frame :
    ∀ fs : FileState,
      saveDatabase [] fs = fs ∧ getCards (saveDatabase [] fs) = getCards fs := by
  intro fs
  exact ⟨rfl, rfl⟩

end Riftbound
